import Mathlib

set_option linter.unusedVariables false

/-!
Verification development for the obsidian-custom-cursor plugin.

The definitions below are a shallow embedding of the caret rendering
engine of the repository:
  * `src/settings.ts`   — the `CustomCursorSettings` record,
  * `src/caret-extension.ts` (the canonical variant with composition
    handling) — the CodeMirror view plugin: `build`, `update`,
    `markActivity`, `scheduleIdleCheck`, `updateCursorCache`,
    `cursorsEqual`, the composition handlers and the idle timeout,
  * `src/title-caret.ts` — the floating inline-title caret:
    `render`, `getCaretSize`, `shouldBlink`, `destroy`, the
    focus/selection handlers and their timers.

Document offsets and times (milliseconds) are embedded as `Int`
(JavaScript numbers used as integers); geometry values are embedded as
`Rat` (JavaScript floating point used for pixel sizes).  DOM side
effects are made explicit as fields of the state records: the forced
`caret-color` style override becomes a boolean, a pending
`setTimeout`/`requestAnimationFrame` becomes an `Option`/`Bool` field,
and every `this.deco = this.build()` assignment and `this.view.update([])`
call increments an instrumentation counter so that "a rebuild happened"
is observable in the model.
-/

/-- Embedding of the cursorStyle union type from src/settings.ts. -/
inductive CursorStyle where
  | block
  | line
  | underline
deriving DecidableEq, Repr

/-- Embedding of the colorPreset union type from src/settings.ts. -/
inductive ColorPreset where
  | accent
  | text
  | custom
deriving DecidableEq, Repr

/-- Embedding of the CustomCursorSettings interface from src/settings.ts. -/
structure CustomCursorSettings where
  colorPreset : ColorPreset
  cursorColor : String
  cursorWidth : Rat
  cursorHeight : Rat
  cursorStyle : CursorStyle
  blinkSpeed : Int
  blinkOnlyWhenIdle : Bool
  idleDelay : Int
deriving DecidableEq, Repr

/-- Embedding of DEFAULT_SETTINGS from src/settings.ts. -/
def DEFAULT_SETTINGS : CustomCursorSettings :=
  { colorPreset := .accent
    cursorColor := "#528BFF"
    cursorWidth := 2
    cursorHeight := 6/5
    cursorStyle := .line
    blinkSpeed := 1000
    blinkOnlyWhenIdle := true
    idleDelay := 500 }

/-- Embedding of a CodeMirror SelectionRange: anchor and head offsets;
the range is empty (a caret, not a span) when anchor = head. -/
structure SelectionRange where
  anchor : Int
  head : Int
deriving DecidableEq, Repr

/-- Emptiness of a selection range (CodeMirror: a range is empty when
its two ends coincide). -/
def SelectionRange.empty (r : SelectionRange) : Bool :=
  decide (r.anchor = r.head)

/-- Embedding of the viewport: the [from, to] offset window the editor
currently materializes (field names from CodeMirror viewport.from and
viewport.to; from is a Lean keyword, hence the underscores). -/
structure Viewport where
  from_ : Int
  to_ : Int
deriving DecidableEq, Repr

/-- Embedding of a CaretWidget from src/caret-extension.ts: the only
varying datum is whether the css class carries blink. -/
structure CaretWidget where
  blink : Bool
deriving DecidableEq, Repr

/-- Embedding of one widget decoration added by build(): position,
widget, and the side option. -/
structure WidgetDeco where
  pos : Int
  widget : CaretWidget
  side : Int
deriving DecidableEq, Repr

/-- Embedding of the parts of the EditorView that the plugin reads:
view.viewport and view.state.selection.ranges. -/
structure ViewRef where
  viewport : Viewport
  ranges : List SelectionRange
deriving DecidableEq, Repr

/-- Embedding of the ViewUpdate flags the plugin consults. -/
structure UpdateFlags where
  selectionSet : Bool
  docChanged : Bool
  viewportChanged : Bool
deriving DecidableEq, Repr

/-- Embedding of the view plugin instance state from
src/caret-extension.ts, plus explicit fields for the DOM side effects:
nativeCaretVisible records the forced caret-color override installed by
applyNativeCaretState (true means the native caret is shown, i.e. the
override currently restores native rendering; false means the hiding
override is installed); idleTimeout holds the absolute fire time of the
single pending window.setTimeout; rebuildCount counts the
`this.deco = this.build()` assignments and viewUpdateCount the
`this.view.update([])` calls. -/
structure PluginState where
  deco : List WidgetDeco
  lastCursorHeads : List Int
  lastInViewport : Bool
  isIdle : Bool
  isComposing : Bool
  idleTimeout : Option Int
  lastActivityTime : Int
  nativeCaretVisible : Bool
  rebuildCount : Nat
  viewUpdateCount : Nat
deriving DecidableEq, Repr

/-- Embedding of build() from src/caret-extension.ts: widget choice from
blink settings and idle state, side from the cursor style, empty result
while composing, otherwise one widget per empty selection range whose
head lies within the viewport extended by a one-unit margin. -/
def build (settings : CustomCursorSettings) (view : ViewRef)
    (isIdle isComposing : Bool) : List WidgetDeco :=
  let shouldBlink := !settings.blinkOnlyWhenIdle || isIdle
  let widget : CaretWidget := ⟨shouldBlink⟩
  let side : Int := if settings.cursorStyle = .block then -1 else 1
  if isComposing then
    []
  else
    view.ranges.filterMap (fun range =>
      if !range.empty then
        none
      else if range.head < view.viewport.from_ - 1 ∨
          range.head > view.viewport.to_ + 1 then
        none
      else
        some ⟨range.head, widget, side⟩)

/-- Embedding of applyNativeCaretState() from src/caret-extension.ts:
the forced style override shows the native caret exactly while
composing. -/
def applyNativeCaretState (st : PluginState) : PluginState :=
  { st with nativeCaretVisible := st.isComposing }

/-- Embedding of clearIdleTimeout() from src/caret-extension.ts. -/
def clearIdleTimeout (st : PluginState) : PluginState :=
  { st with idleTimeout := none }

/-- Embedding of scheduleIdleCheck() from src/caret-extension.ts,
parameterized by the current time (Date.now would read it); setting a
timeout is modelled by recording its absolute fire time
now + max 0 idleDelay. -/
def scheduleIdleCheck (settings : CustomCursorSettings) (now : Int)
    (view : ViewRef) (st : PluginState) : PluginState :=
  let st := clearIdleTimeout st
  if !settings.blinkOnlyWhenIdle || st.isComposing then
    if st.isIdle then
      { st with isIdle := false
                deco := build settings view false st.isComposing
                rebuildCount := st.rebuildCount + 1
                viewUpdateCount := st.viewUpdateCount + 1 }
    else
      st
  else
    { st with idleTimeout := some (now + max 0 settings.idleDelay) }

/-- Embedding of the callback body of the window.setTimeout installed by
scheduleIdleCheck() in src/caret-extension.ts. -/
def idleTimeoutCallback (settings : CustomCursorSettings)
    (view : ViewRef) (st : PluginState) : PluginState :=
  let st := { st with idleTimeout := none }
  if st.isComposing || st.isIdle then
    st
  else
    { st with isIdle := true
              deco := build settings view true st.isComposing
              rebuildCount := st.rebuildCount + 1
              viewUpdateCount := st.viewUpdateCount + 1 }

/-- Embedding of markActivity() from src/caret-extension.ts. -/
def markActivity (settings : CustomCursorSettings) (now : Int)
    (view : ViewRef) (st : PluginState) : PluginState :=
  let st := { st with lastActivityTime := now }
  let st :=
    if st.isIdle then
      { st with isIdle := false
                deco := build settings view false st.isComposing
                rebuildCount := st.rebuildCount + 1 }
    else
      st
  scheduleIdleCheck settings now view st

/-- Empty-range heads of a selection, in order (the list that both
updateCursorCache and cursorsEqual compute in src/caret-extension.ts).
-/
def emptyHeads (ranges : List SelectionRange) : List Int :=
  (ranges.filter (·.empty)).map (·.head)

/-- Viewport membership test with the one-unit margin, shared by
updateCursorCache, update and build in src/caret-extension.ts. -/
def headInViewport (viewport : Viewport) (head : Int) : Bool :=
  decide (viewport.from_ - 1 ≤ head) && decide (head ≤ viewport.to_ + 1)

/-- Embedding of updateCursorCache() from src/caret-extension.ts. -/
def updateCursorCache (view : ViewRef) (st : PluginState) : PluginState :=
  let heads := emptyHeads view.ranges
  { st with lastCursorHeads := heads
            lastInViewport := heads.any (headInViewport view.viewport) }

/-- Embedding of cursorsEqual() from src/caret-extension.ts: the source
compares lengths and then position by position, which is list equality
of the empty-range head lists. -/
def cursorsEqual (st : PluginState) (ranges : List SelectionRange) : Bool :=
  decide (emptyHeads ranges = st.lastCursorHeads)

/-- Embedding of update() from src/caret-extension.ts, parameterized by
the current time, the post-update view (view.viewport and
view.state.selection.ranges as read inside the handler) and the
notification flags. -/
def update (settings : CustomCursorSettings) (now : Int) (view : ViewRef)
    (u : UpdateFlags) (st : PluginState) : PluginState :=
  let st := applyNativeCaretState st
  let st :=
    if u.docChanged && settings.blinkOnlyWhenIdle && !st.isComposing then
      markActivity settings now view st
    else
      st
  let st :=
    if !settings.blinkOnlyWhenIdle && st.isIdle then
      { st with isIdle := false
                deco := build settings view false st.isComposing
                rebuildCount := st.rebuildCount + 1 }
    else
      st
  if !u.selectionSet && !u.docChanged && !u.viewportChanged then
    st
  else
    let cursorsUnchanged := cursorsEqual st view.ranges
    if u.viewportChanged && !u.selectionSet && !u.docChanged &&
        cursorsUnchanged then
      let currentInViewport :=
        st.lastCursorHeads.any (headInViewport view.viewport)
      if currentInViewport = st.lastInViewport then
        st
      else
        { st with lastInViewport := currentInViewport
                  deco := build settings view st.isIdle st.isComposing
                  rebuildCount := st.rebuildCount + 1 }
    else if !u.viewportChanged && cursorsUnchanged then
      st
    else
      updateCursorCache view
        { st with deco := build settings view st.isIdle st.isComposing
                  rebuildCount := st.rebuildCount + 1 }

/-- Embedding of the onCompositionStart handler from
src/caret-extension.ts. -/
def onCompositionStart (settings : CustomCursorSettings)
    (view : ViewRef) (st : PluginState) : PluginState :=
  if st.isComposing then
    st
  else
    let st := { st with isComposing := true, isIdle := false }
    let st := clearIdleTimeout st
    let st := applyNativeCaretState st
    { st with deco := build settings view st.isIdle st.isComposing
              rebuildCount := st.rebuildCount + 1
              viewUpdateCount := st.viewUpdateCount + 1 }

/-- Embedding of the onCompositionEnd handler from
src/caret-extension.ts. -/
def onCompositionEnd (settings : CustomCursorSettings) (now : Int)
    (view : ViewRef) (st : PluginState) : PluginState :=
  if !st.isComposing then
    st
  else
    let st := { st with isComposing := false }
    let st := applyNativeCaretState st
    let st := markActivity settings now view st
    scheduleIdleCheck settings now view st

/-- Embedding of the plugin constructor from src/caret-extension.ts:
fields start at their declared initializers (deco empty, not idle, not
composing, no timer, lastActivityTime = Date.now()), then the
constructor applies the native caret override, builds, fills the cursor
cache and schedules the idle check. -/
def constructorState (settings : CustomCursorSettings) (t0 : Int)
    (view : ViewRef) : PluginState :=
  let st : PluginState :=
    { deco := []
      lastCursorHeads := []
      lastInViewport := false
      isIdle := false
      isComposing := false
      idleTimeout := none
      lastActivityTime := t0
      nativeCaretVisible := false
      rebuildCount := 0
      viewUpdateCount := 0 }
  let st := applyNativeCaretState st
  let st := { st with deco := build settings view st.isIdle st.isComposing
                      rebuildCount := st.rebuildCount + 1 }
  let st := updateCursorCache view st
  scheduleIdleCheck settings t0 view st

/-- Events the plugin instance can receive: an editor update
notification, the firing of the pending idle timeout (the runtime may
deliver it at any time at or after its scheduled fire time), and the
composition handlers. -/
inductive PluginEvent where
  | upd (now : Int) (view : ViewRef) (u : UpdateFlags)
  | fire (t : Int) (view : ViewRef)
  | compStart (view : ViewRef)
  | compEnd (t : Int) (view : ViewRef)

/-- One event step of the plugin instance.  A fire event has an effect
only when a timeout is pending and its scheduled time has been reached
(the single-threaded runtime never runs a cleared or future timer). -/
def stepEv (settings : CustomCursorSettings) (e : PluginEvent)
    (st : PluginState) : PluginState :=
  match e with
  | .upd now view u => update settings now view u st
  | .fire t view =>
      match st.idleTimeout with
      | some tf => if tf ≤ t then idleTimeoutCallback settings view st else st
      | none => st
  | .compStart view => onCompositionStart settings view st
  | .compEnd t view => onCompositionEnd settings t view st

/-- Folding a list of events over the plugin state. -/
def runTrace (settings : CustomCursorSettings) (evs : List PluginEvent)
    (st : PluginState) : PluginState :=
  evs.foldl (fun s e => stepEv settings e s) st

/-!
Embedding of src/title-caret.ts, the floating inline-title caret.
DOM geometry that the code reads through browser APIs (getClientRects,
getBoundingClientRect, getComputedStyle) is supplied as an oracle input
record TitleDom; the rest of the logic is translated directly.
-/

/-- Screen rectangle of the collapsed caret range (the result of
getCaretRect in src/title-caret.ts; its getClientRects and
getBoundingClientRect reads are external DOM geometry, so the resolved
rectangle is an oracle input). -/
structure DOMRectQ where
  left : Rat
  bottom : Rat
  height : Rat
deriving DecidableEq, Repr

/-- Width and height pair returned by getCaretSize in
src/title-caret.ts. -/
structure CaretSize where
  width : Rat
  height : Rat
deriving DecidableEq, Repr

/-- DOM facts read by render() in src/title-caret.ts:
window.getSelection() existence, rangeCount, isCollapsed, whether the
first range's start container lies inside the active title, the
resolved caret rectangle, and the two computed line heights
(getFallbackLineHeight of the title and getEditorBaseLineHeight). -/
structure TitleDom where
  selectionExists : Bool
  rangeCount : Nat
  isCollapsed : Bool
  rangeInTitle : Bool
  caretRect : Option DOMRectQ
  titleFallbackLineHeight : Rat
  editorBaseLineHeight : Rat
deriving DecidableEq, Repr

/-- Geometry and blink class of the floating caret element when
render() shows it (none models the hideCaret path). -/
structure TitleCaretView where
  left : Rat
  top : Rat
  width : Rat
  height : Rat
  blink : Bool
deriving DecidableEq, Repr

/-- Embedding of shouldBlink() from src/title-caret.ts. -/
def shouldBlink (settings : CustomCursorSettings) (isIdle : Bool) : Bool :=
  !settings.blinkOnlyWhenIdle || isIdle

/-- Embedding of getCaretSize() from src/title-caret.ts. -/
def getCaretSize (settings : CustomCursorSettings) (lineHeight : Rat) :
    CaretSize :=
  let scaledHeight := max 1 (lineHeight * settings.cursorHeight)
  let blockWidth := max 1 (lineHeight * (3/5))
  match settings.cursorStyle with
  | .block => ⟨blockWidth, scaledHeight⟩
  | .underline => ⟨blockWidth, max 1 settings.cursorWidth⟩
  | .line => ⟨max 1 settings.cursorWidth, scaledHeight⟩

/-- Embedding of render() from src/title-caret.ts: every early-exit
guard yields the hidden caret (none); otherwise the element geometry is
set from the caret rectangle and getCaretSize over the effective line
height min(title line height, editor base line height), with the blink
class toggled by shouldBlink(). -/
def render (settings : CustomCursorSettings) (activeTitle : Bool)
    (isComposing isIdle : Bool) (dom : TitleDom) : Option TitleCaretView :=
  if !activeTitle || !dom.selectionExists || dom.rangeCount == 0 ||
      !dom.isCollapsed || isComposing then
    none
  else if !dom.rangeInTitle then
    none
  else
    match dom.caretRect with
    | none => none
    | some rect =>
      let titleLineHeight :=
        if rect.height > 0 then rect.height else dom.titleFallbackLineHeight
      let baseLineHeight := dom.editorBaseLineHeight
      let effectiveLineHeight := min titleLineHeight baseLineHeight
      let sz := getCaretSize settings effectiveLineHeight
      some ⟨rect.left, rect.bottom - sz.height, sz.width, sz.height,
            shouldBlink settings isIdle⟩

/-- Title line height as render() computes it from the DOM facts
(rect.height when positive, else the computed-style fallback), for
stating bounds about the rendered geometry. -/
def titleLineHeightOf (dom : TitleDom) : Rat :=
  match dom.caretRect with
  | some rect =>
      if rect.height > 0 then rect.height else dom.titleFallbackLineHeight
  | none => dom.titleFallbackLineHeight

/-!
Lifecycle model of the InlineTitleCaretManager from src/title-caret.ts:
the instance state with its timers, listeners, attached DOM artifacts
and forced style overrides made explicit.  Title elements are
identified by Nat.
-/

/-- Instance state of the InlineTitleCaretManager.  idleTimeout holds
the absolute fire time of the tracked idle setTimeout; rafId records a
pending coalesced animation frame; focusOutTimeouts counts the pending
window.setTimeout(..., 0) callbacks queued by onFocusOut (the source
stores no handle for them); overriddenTitles lists the title elements
currently carrying the forced caret-color override;
activeClassTitles those carrying custom-cursor-title-active. -/
structure TitleMgrState where
  activeTitle : Option Nat
  isComposing : Bool
  isIdle : Bool
  idleTimeout : Option Int
  rafId : Bool
  focusOutTimeouts : Nat
  listenersBound : Bool
  caretElAttached : Bool
  bodyClassAdded : Bool
  overriddenTitles : List Nat
  activeClassTitles : List Nat
  destroyed : Bool
deriving DecidableEq, Repr

/-- Embedding of requestRender from src/title-caret.ts: coalesces onto
one pending animation frame. -/
def requestRender (st : TitleMgrState) : TitleMgrState :=
  if st.rafId then st else { st with rafId := true }

/-- Embedding of applyNativeTitleCaretState() from src/title-caret.ts:
installs the forced caret-color override on the active title (value
auto while composing, transparent otherwise; presence is what the model
tracks). -/
def applyNativeTitleCaretState (st : TitleMgrState) : TitleMgrState :=
  match st.activeTitle with
  | none => st
  | some t =>
      if t ∈ st.overriddenTitles then st
      else { st with overriddenTitles := t :: st.overriddenTitles }

/-- Embedding of clearNativeTitleCaretState(target) from
src/title-caret.ts. -/
def clearNativeTitleCaretState (target : Nat) (st : TitleMgrState) :
    TitleMgrState :=
  { st with overriddenTitles := st.overriddenTitles.filter (· ≠ target) }

/-- Embedding of clearIdleTimeout() from src/title-caret.ts. -/
def titleClearIdleTimeout (st : TitleMgrState) : TitleMgrState :=
  { st with idleTimeout := none }

/-- Embedding of scheduleIdleCheck() from src/title-caret.ts. -/
def titleScheduleIdleCheck (settings : CustomCursorSettings) (now : Int)
    (st : TitleMgrState) : TitleMgrState :=
  let st := titleClearIdleTimeout st
  if !settings.blinkOnlyWhenIdle || st.activeTitle = none ||
      st.isComposing then
    if st.isIdle then
      requestRender { st with isIdle := false }
    else
      st
  else
    { st with idleTimeout := some (now + max 0 settings.idleDelay) }

/-- Embedding of markActivity() from src/title-caret.ts. -/
def titleMarkActivity (settings : CustomCursorSettings) (now : Int)
    (st : TitleMgrState) : TitleMgrState :=
  if !settings.blinkOnlyWhenIdle || st.activeTitle = none ||
      st.isComposing then
    let st := if st.isIdle then { st with isIdle := false } else st
    titleScheduleIdleCheck settings now st
  else
    let st := if st.isIdle then { st with isIdle := false } else st
    titleScheduleIdleCheck settings now st

/-- Embedding of setActiveTitle() from src/title-caret.ts. -/
def setActiveTitle (settings : CustomCursorSettings) (now : Int)
    (nextTitle : Option Nat) (st : TitleMgrState) : TitleMgrState :=
  if st.activeTitle = nextTitle then
    st
  else
    let st :=
      match st.activeTitle with
      | some t =>
          clearNativeTitleCaretState t
            { st with activeClassTitles := st.activeClassTitles.filter (· ≠ t) }
      | none => st
    let st := { st with activeTitle := nextTitle
                        isComposing := false
                        isIdle := false }
    let st :=
      match nextTitle with
      | some t =>
          applyNativeTitleCaretState
            { st with activeClassTitles := t :: st.activeClassTitles }
      | none => st
    titleScheduleIdleCheck settings now st

/-- Embedding of syncActiveTitleFromSelection() from src/title-caret.ts;
the title resolved from the current DOM selection anchor (none when no
selection or the anchor is outside any tracked title) is an oracle
input. -/
def syncActiveTitleFromSelection (settings : CustomCursorSettings)
    (now : Int) (selTitle : Option Nat) (st : TitleMgrState) :
    TitleMgrState :=
  setActiveTitle settings now selTitle st

/-- Embedding of the onFocusOut handler from src/title-caret.ts: it
queues an untracked zero-delay window.setTimeout whose callback is
focusOutCallback below (the handle of this timeout is stored nowhere).
-/
def onFocusOut (st : TitleMgrState) : TitleMgrState :=
  { st with focusOutTimeouts := st.focusOutTimeouts + 1 }

/-- Callback body of the zero-delay timeout queued by onFocusOut in
src/title-caret.ts: re-sync the active title from the selection, then
request a render. -/
def focusOutCallback (settings : CustomCursorSettings) (now : Int)
    (selTitle : Option Nat) (st : TitleMgrState) : TitleMgrState :=
  requestRender (syncActiveTitleFromSelection settings now selTitle st)

/-- Embedding of destroy() from src/title-caret.ts: clear the idle
timeout, cancel the pending animation frame, drop the active title
(removing its classes and forced override), run all disposers
(unbinding the listeners), remove the caret element and the body class.
The zero-delay focus-out timeouts have no stored handle and are not
touched. -/
def destroy (settings : CustomCursorSettings) (now : Int)
    (st : TitleMgrState) : TitleMgrState :=
  let st := titleClearIdleTimeout st
  let st := if st.rafId then { st with rafId := false } else st
  let st := setActiveTitle settings now none st
  let st := { st with listenersBound := false }
  let st := { st with caretElAttached := false }
  { st with bodyClassAdded := false, destroyed := true }

/-- Embedding of the InlineTitleCaretManager constructor from
src/title-caret.ts. -/
def titleConstructorState (settings : CustomCursorSettings) (t0 : Int)
    (selTitle : Option Nat) : TitleMgrState :=
  let st : TitleMgrState :=
    { activeTitle := none
      isComposing := false
      isIdle := false
      idleTimeout := none
      rafId := false
      focusOutTimeouts := 0
      listenersBound := true
      caretElAttached := true
      bodyClassAdded := true
      overriddenTitles := []
      activeClassTitles := []
      destroyed := false }
  let st := syncActiveTitleFromSelection settings t0 selTitle st
  let st := titleScheduleIdleCheck settings t0 st
  requestRender st

/-- Events relevant to the manager lifecycle: a focusout event on the
document (the handler runs only while the listeners are bound), the
later firing of a queued zero-delay focus-out timeout (it runs whenever
one is pending, bound listeners or not, since the callback holds a
reference to the instance), and destroy(). -/
inductive TitleEvent where
  | focusOut
  | focusOutFire (now : Int) (selTitle : Option Nat)
  | doDestroy (now : Int)

/-- One lifecycle step of the manager. -/
def titleStep (settings : CustomCursorSettings) (e : TitleEvent)
    (st : TitleMgrState) : TitleMgrState :=
  match e with
  | .focusOut => if st.listenersBound then onFocusOut st else st
  | .focusOutFire now selTitle =>
      if st.focusOutTimeouts > 0 then
        focusOutCallback settings now selTitle
          { st with focusOutTimeouts := st.focusOutTimeouts - 1 }
      else
        st
  | .doDestroy now => destroy settings now st

/-- Folding a list of lifecycle events over the manager state. -/
def titleRun (settings : CustomCursorSettings) (evs : List TitleEvent)
    (st : TitleMgrState) : TitleMgrState :=
  evs.foldl (fun s e => titleStep settings e s) st

/-!
Theorems.  Helper lemmas come first, then one theorem per claim.
-/

/-- Rewriting of build() through the empty-range head list: the loop
over selection ranges keeps exactly the empty ranges whose heads lie in
the margin-extended viewport. -/
def buildFromHeads (settings : CustomCursorSettings) (vp : Viewport)
    (heads : List Int) (isIdle : Bool) : List WidgetDeco :=
  heads.filterMap (fun h =>
    if headInViewport vp h then
      some ⟨h, ⟨!settings.blinkOnlyWhenIdle || isIdle⟩,
            if settings.cursorStyle = .block then -1 else 1⟩
    else none)

theorem emptyHeads_cons_empty (r : SelectionRange) (rs : List SelectionRange)
    (he : r.empty = true) :
    emptyHeads (r :: rs) = r.head :: emptyHeads rs := by
  simp [emptyHeads, List.filter_cons, he]

theorem emptyHeads_cons_nonempty (r : SelectionRange) (rs : List SelectionRange)
    (he : r.empty = false) :
    emptyHeads (r :: rs) = emptyHeads rs := by
  simp [emptyHeads, List.filter_cons, he]

theorem buildFromHeads_nil (settings : CustomCursorSettings) (vp : Viewport)
    (isIdle : Bool) : buildFromHeads settings vp [] isIdle = [] := rfl

theorem buildFromHeads_cons_in (settings : CustomCursorSettings)
    (vp : Viewport) (h : Int) (heads : List Int) (isIdle : Bool)
    (hv : headInViewport vp h = true) :
    buildFromHeads settings vp (h :: heads) isIdle =
      ⟨h, ⟨!settings.blinkOnlyWhenIdle || isIdle⟩,
        if settings.cursorStyle = .block then -1 else 1⟩ ::
      buildFromHeads settings vp heads isIdle := by
  simp [buildFromHeads, List.filterMap_cons, hv]

theorem buildFromHeads_cons_out (settings : CustomCursorSettings)
    (vp : Viewport) (h : Int) (heads : List Int) (isIdle : Bool)
    (hv : headInViewport vp h = false) :
    buildFromHeads settings vp (h :: heads) isIdle =
      buildFromHeads settings vp heads isIdle := by
  simp [buildFromHeads, List.filterMap_cons, hv]

theorem build_eq_buildFromHeads (settings : CustomCursorSettings)
    (view : ViewRef) (isIdle isComposing : Bool) :
    build settings view isIdle isComposing =
      if isComposing then [] else
        buildFromHeads settings view.viewport (emptyHeads view.ranges) isIdle := by
  rcases view with ⟨vp, ranges⟩
  cases isComposing with
  | true => simp [build]
  | false =>
    simp only [build, Bool.false_eq_true, if_false]
    induction ranges with
    | nil => rfl
    | cons r rs ih =>
      rw [List.filterMap_cons]
      by_cases he : r.empty = true
      · rw [emptyHeads_cons_empty r rs he]
        by_cases hv : headInViewport vp r.head = true
        · have hin : ¬(r.head < vp.from_ - 1 ∨ r.head > vp.to_ + 1) := by
            simp only [headInViewport, Bool.and_eq_true, decide_eq_true_eq] at hv
            omega
          rw [buildFromHeads_cons_in settings vp r.head _ isIdle hv]
          simp only [he, Bool.not_true, Bool.false_eq_true, if_false, hin,
            if_false, if_neg hin]
          exact congrArg _ ih
        · have hvf : headInViewport vp r.head = false := by
            exact Bool.not_eq_true _ |>.mp hv
          have hout : r.head < vp.from_ - 1 ∨ r.head > vp.to_ + 1 := by
            simp only [headInViewport, Bool.and_eq_false_iff,
              decide_eq_false_iff_not, not_le] at hvf
            omega
          rw [buildFromHeads_cons_out settings vp r.head _ isIdle hvf]
          simp only [he, Bool.not_true, if_pos hout]
          exact ih
      · simp only [Bool.not_eq_true] at he
        rw [emptyHeads_cons_nonempty r rs he]
        simp only [he, Bool.not_false, if_pos]
        exact ih

/-- Membership in the empty-head list. -/
theorem mem_emptyHeads (ranges : List SelectionRange) (h : Int) :
    h ∈ emptyHeads ranges ↔
      ∃ r ∈ ranges, r.empty = true ∧ r.head = h := by
  simp only [emptyHeads, List.mem_map, List.mem_filter]
  constructor
  · rintro ⟨r, ⟨hr, he⟩, hh⟩
    exact ⟨r, hr, he, hh⟩
  · rintro ⟨r, hr, he, hh⟩
    exact ⟨r, ⟨hr, he⟩, hh⟩

/-- Positions occurring in buildFromHeads. -/
theorem mem_buildFromHeads (settings : CustomCursorSettings)
    (vp : Viewport) (heads : List Int) (isIdle : Bool) (w : WidgetDeco) :
    w ∈ buildFromHeads settings vp heads isIdle ↔
      w.pos ∈ heads ∧ headInViewport vp w.pos = true ∧
      w.widget = ⟨!settings.blinkOnlyWhenIdle || isIdle⟩ ∧
      w.side = (if settings.cursorStyle = .block then -1 else 1) := by
  simp only [buildFromHeads, List.mem_filterMap]
  constructor
  · rintro ⟨h, hh, hw⟩
    by_cases hv : headInViewport vp h = true
    · rw [if_pos hv] at hw
      cases hw
      exact ⟨hh, hv, rfl, rfl⟩
    · rw [if_neg hv] at hw
      cases hw
  · rintro ⟨hh, hv, hw, hs⟩
    refine ⟨w.pos, hh, ?_⟩
    rw [if_pos hv]
    cases w
    simp_all

/-- C1: with composition off, build() produces an indicator at document
offset h if and only if some selection range is empty with head h and
from - 1 <= h <= to + 1; non-empty ranges never produce an indicator
and heads outside that margin never produce one. -/
theorem C1_indicator_iff (settings : CustomCursorSettings) (view : ViewRef)
    (isIdle : Bool) (h : Int) :
    (∃ w ∈ build settings view isIdle false, w.pos = h) ↔
      ∃ r ∈ view.ranges, r.empty = true ∧ r.head = h ∧
        view.viewport.from_ - 1 ≤ h ∧ h ≤ view.viewport.to_ + 1 := by
  rw [build_eq_buildFromHeads]
  simp only [Bool.false_eq_true, if_false]
  constructor
  · rintro ⟨w, hw, hpos⟩
    rw [mem_buildFromHeads] at hw
    obtain ⟨hh, hv, hwdg, hside⟩ := hw
    subst hpos
    obtain ⟨r, hr, he, hrh⟩ := (mem_emptyHeads _ _).mp hh
    simp only [headInViewport, Bool.and_eq_true, decide_eq_true_eq] at hv
    exact ⟨r, hr, he, hrh, hv.1, hv.2⟩
  · rintro ⟨r, hr, he, hrh, h1, h2⟩
    refine ⟨⟨h, ⟨!settings.blinkOnlyWhenIdle || isIdle⟩,
      if settings.cursorStyle = .block then -1 else 1⟩, ?_, rfl⟩
    rw [mem_buildFromHeads]
    refine ⟨(mem_emptyHeads _ _).mpr ⟨r, hr, he, hrh⟩, ?_, rfl, rfl⟩
    simp only [headInViewport, Bool.and_eq_true, decide_eq_true_eq]
    exact ⟨h1, h2⟩

/-- C2: while isComposing is true the decoration build produces zero
custom indicators, for every caret set, idle state and settings, and
the floating title render likewise hides its indicator. -/
theorem C2_composing_zero_indicators (settings : CustomCursorSettings)
    (view : ViewRef) (isIdle : Bool) (tsettings : CustomCursorSettings)
    (activeTitle isIdleT : Bool) (dom : TitleDom) :
    build settings view isIdle true = [] ∧
      render tsettings activeTitle true isIdleT dom = none := by
  constructor
  · simp [build]
  · simp [render]

/-- C4: every indicator the editor-body build produces carries the
blink class exactly when (not blinkOnlyWhenIdle or isIdle) and not
composing, and the floating title indicator, whenever shown, carries
the blink class under the same condition. -/
theorem C4_blink_class_iff (settings : CustomCursorSettings) (view : ViewRef)
    (isIdle isComposing : Bool) (tsettings : CustomCursorSettings)
    (activeTitle isComposingT isIdleT : Bool) (dom : TitleDom) :
    (∀ w ∈ build settings view isIdle isComposing,
        w.widget.blink =
          ((!settings.blinkOnlyWhenIdle || isIdle) && !isComposing)) ∧
      (∀ v, render tsettings activeTitle isComposingT isIdleT dom = some v →
        v.blink = ((!tsettings.blinkOnlyWhenIdle || isIdleT) && !isComposingT)) := by
  constructor
  · intro w hw
    rw [build_eq_buildFromHeads] at hw
    cases isComposing with
    | true => simp at hw
    | false =>
      simp only [Bool.false_eq_true, if_false] at hw
      rw [mem_buildFromHeads] at hw
      rw [hw.2.2.1]
      simp
  · intro v hv
    by_cases hc : isComposingT = true
    · rw [hc] at hv
      simp [render] at hv
    · simp only [Bool.not_eq_true] at hc
      subst hc
      rcases hdr : dom.caretRect with _ | rect
      · simp only [render, hdr] at hv
        split at hv
        · cases hv
        · split at hv
          · cases hv
          · cases hv
      · simp only [render, hdr] at hv
        split at hv
        · cases hv
        · split at hv
          · cases hv
          · cases hv
            simp [shouldBlink]

/-- Witness for C4 at concrete inputs: a single caret at offset 3 in
viewport [0, 10] with blinkOnlyWhenIdle on and isIdle on produces a
blinking widget, and a concrete title render produces a blinking
floating indicator. -/
theorem C4_blink_class_iff_witness :
    (⟨3, ⟨true⟩, 1⟩ : WidgetDeco).widget.blink =
        ((!DEFAULT_SETTINGS.blinkOnlyWhenIdle || true) && !false) ∧
      (⟨5, 10, 2, 12, true⟩ : TitleCaretView).blink =
        ((!DEFAULT_SETTINGS.blinkOnlyWhenIdle || true) && !false) := by
  constructor
  · exact (C4_blink_class_iff DEFAULT_SETTINGS ⟨⟨0, 10⟩, [⟨3, 3⟩]⟩ true false
      DEFAULT_SETTINGS true false true
      ⟨true, 1, true, true, some ⟨5, 22, 10⟩, 16, 16⟩).1
      ⟨3, ⟨true⟩, 1⟩ (by decide)
  · exact (C4_blink_class_iff DEFAULT_SETTINGS ⟨⟨0, 10⟩, [⟨3, 3⟩]⟩ true false
      DEFAULT_SETTINGS true false true
      ⟨true, 1, true, true, some ⟨5, 22, 10⟩, 16, 16⟩).2
      ⟨5, 10, 2, 12, true⟩ (by norm_num [render, getCaretSize, shouldBlink,
        DEFAULT_SETTINGS])

/-- C10: an update notification without the document-changed flag, with
blinkOnlyWhenIdle on and composition off, leaves the idle tracking
state untouched: lastActivityTime, the pending idle timer and isIdle
are unchanged. -/
theorem C10_update_preserves_idle_tracking (settings : CustomCursorSettings)
    (now : Int) (view : ViewRef) (u : UpdateFlags) (st : PluginState)
    (hdoc : u.docChanged = false)
    (hblink : settings.blinkOnlyWhenIdle = true)
    (hcomp : st.isComposing = false) :
    (update settings now view u st).lastActivityTime = st.lastActivityTime ∧
      (update settings now view u st).idleTimeout = st.idleTimeout ∧
      (update settings now view u st).isIdle = st.isIdle := by
  unfold update
  simp only [hdoc, hblink, Bool.false_and, Bool.and_false, Bool.not_true,
    Bool.false_eq_true, if_false]
  split
  · exact ⟨rfl, rfl, rfl⟩
  · split
    · split
      · exact ⟨rfl, rfl, rfl⟩
      · exact ⟨rfl, rfl, rfl⟩
    · split
      · exact ⟨rfl, rfl, rfl⟩
      · exact ⟨rfl, rfl, rfl⟩

/-- Witness for C10: a pure selection movement (selectionSet only) at a
concrete state leaves lastActivityTime, the idle timer and isIdle
unchanged. -/
theorem C10_update_preserves_idle_tracking_witness :
    (update DEFAULT_SETTINGS 1000 ⟨⟨0, 10⟩, [⟨2, 2⟩]⟩ ⟨true, false, false⟩
        ⟨[], [], false, false, false, none, 0, false, 0, 0⟩).lastActivityTime =
      (⟨[], [], false, false, false, none, 0, false, 0, 0⟩ : PluginState).lastActivityTime ∧
      (update DEFAULT_SETTINGS 1000 ⟨⟨0, 10⟩, [⟨2, 2⟩]⟩ ⟨true, false, false⟩
        ⟨[], [], false, false, false, none, 0, false, 0, 0⟩).idleTimeout =
      (⟨[], [], false, false, false, none, 0, false, 0, 0⟩ : PluginState).idleTimeout ∧
      (update DEFAULT_SETTINGS 1000 ⟨⟨0, 10⟩, [⟨2, 2⟩]⟩ ⟨true, false, false⟩
        ⟨[], [], false, false, false, none, 0, false, 0, 0⟩).isIdle =
      (⟨[], [], false, false, false, none, 0, false, 0, 0⟩ : PluginState).isIdle :=
  C10_update_preserves_idle_tracking DEFAULT_SETTINGS 1000
    ⟨⟨0, 10⟩, [⟨2, 2⟩]⟩ ⟨true, false, false⟩
    ⟨[], [], false, false, false, none, 0, false, 0, 0⟩ rfl rfl rfl

/-- C6: invoking update() a second time with a no-change notification
(no selection/document/viewport flag set) is a no-op: the whole state,
including the decoration set, the cursor cache and the rebuild
counters, is exactly what the first invocation left. -/
theorem C6_second_update_noop (settings : CustomCursorSettings)
    (now now2 : Int) (view : ViewRef) (u : UpdateFlags) (st : PluginState)
    (hs : u.selectionSet = false) (hd : u.docChanged = false)
    (hv : u.viewportChanged = false) :
    update settings now2 view u (update settings now view u st) =
      update settings now view u st := by
  obtain ⟨deco, heads, liv, isIdle, isComposing, it, lat, nv, rc, vc⟩ := st
  cases hb : settings.blinkOnlyWhenIdle <;>
    cases isIdle <;>
      simp [update, applyNativeCaretState, hs, hd, hv, hb]

/-- Witness for C6 at a concrete state and a flagless notification. -/
theorem C6_second_update_noop_witness :
    update DEFAULT_SETTINGS 7 ⟨⟨0, 10⟩, [⟨2, 2⟩]⟩ ⟨false, false, false⟩
        (update DEFAULT_SETTINGS 5 ⟨⟨0, 10⟩, [⟨2, 2⟩]⟩ ⟨false, false, false⟩
          ⟨[], [], false, false, false, none, 0, false, 0, 0⟩) =
      update DEFAULT_SETTINGS 5 ⟨⟨0, 10⟩, [⟨2, 2⟩]⟩ ⟨false, false, false⟩
        ⟨[], [], false, false, false, none, 0, false, 0, 0⟩ :=
  C6_second_update_noop DEFAULT_SETTINGS 5 7 ⟨⟨0, 10⟩, [⟨2, 2⟩]⟩
    ⟨false, false, false⟩ ⟨[], [], false, false, false, none, 0, false, 0, 0⟩
    rfl rfl rfl

/-- Counterexample to C5 as stated: at a concrete composing state (one
caret at offset 2 in viewport [0, 10], not idle, empty decoration set
as built at composition start), the composition-end handler leaves the
decoration set empty — different from what a fresh build would now
produce — and performs no deco assignment and no view.update call, so
it does not trigger a re-render of the custom indicators. -/
theorem C5_composition_end_counterexample :
    (onCompositionEnd DEFAULT_SETTINGS 1000 ⟨⟨0, 10⟩, [⟨2, 2⟩]⟩
        ⟨[], [2], true, false, true, none, 0, true, 0, 0⟩).deco ≠
      build DEFAULT_SETTINGS ⟨⟨0, 10⟩, [⟨2, 2⟩]⟩
        (onCompositionEnd DEFAULT_SETTINGS 1000 ⟨⟨0, 10⟩, [⟨2, 2⟩]⟩
          ⟨[], [2], true, false, true, none, 0, true, 0, 0⟩).isIdle
        (onCompositionEnd DEFAULT_SETTINGS 1000 ⟨⟨0, 10⟩, [⟨2, 2⟩]⟩
          ⟨[], [2], true, false, true, none, 0, true, 0, 0⟩).isComposing ∧
    (onCompositionEnd DEFAULT_SETTINGS 1000 ⟨⟨0, 10⟩, [⟨2, 2⟩]⟩
        ⟨[], [2], true, false, true, none, 0, true, 0, 0⟩).rebuildCount = 0 ∧
    (onCompositionEnd DEFAULT_SETTINGS 1000 ⟨⟨0, 10⟩, [⟨2, 2⟩]⟩
        ⟨[], [2], true, false, true, none, 0, true, 0, 0⟩).viewUpdateCount = 0 := by
  refine ⟨?_, ?_, ?_⟩ <;>
    simp [onCompositionEnd, applyNativeCaretState, markActivity,
      scheduleIdleCheck, clearIdleTimeout, build, DEFAULT_SETTINGS,
      SelectionRange.empty]

/-- C5 as amended: in the Composing state with the instance not idle
(the only reachable combination, since composition start forces
non-idle and the idle timeout is suppressed while composing), the
composition-end handler restores the custom-caret-hiding style
override, marks activity (lastActivityTime := now and, with
blinkOnlyWhenIdle on, the single idle timer rescheduled to
now + max 0 idleDelay), and leaves composition mode — but it does not
trigger a re-render: the decoration set and both the rebuild and
view-update counters are unchanged. -/
theorem C5_composition_end_amended (settings : CustomCursorSettings)
    (now : Int) (view : ViewRef) (st : PluginState)
    (hc : st.isComposing = true) (hi : st.isIdle = false) :
    (onCompositionEnd settings now view st).isComposing = false ∧
      (onCompositionEnd settings now view st).nativeCaretVisible = false ∧
      (onCompositionEnd settings now view st).lastActivityTime = now ∧
      (onCompositionEnd settings now view st).idleTimeout =
        (if settings.blinkOnlyWhenIdle then
          some (now + max 0 settings.idleDelay) else none) ∧
      (onCompositionEnd settings now view st).deco = st.deco ∧
      (onCompositionEnd settings now view st).rebuildCount = st.rebuildCount ∧
      (onCompositionEnd settings now view st).viewUpdateCount = st.viewUpdateCount := by
  obtain ⟨deco, heads, liv, isIdle, isComposing, it, lat, nv, rc, vc⟩ := st
  simp only at hc hi
  subst hc hi
  cases hb : settings.blinkOnlyWhenIdle <;>
    simp [onCompositionEnd, applyNativeCaretState, markActivity,
      scheduleIdleCheck, clearIdleTimeout, hb]

/-- Witness for the amended C5 at a concrete composing state. -/
theorem C5_composition_end_amended_witness :
    (onCompositionEnd DEFAULT_SETTINGS 1000 ⟨⟨0, 10⟩, [⟨2, 2⟩]⟩
        ⟨[], [2], true, false, true, none, 0, true, 0, 0⟩).isComposing = false ∧
      (onCompositionEnd DEFAULT_SETTINGS 1000 ⟨⟨0, 10⟩, [⟨2, 2⟩]⟩
        ⟨[], [2], true, false, true, none, 0, true, 0, 0⟩).nativeCaretVisible = false ∧
      (onCompositionEnd DEFAULT_SETTINGS 1000 ⟨⟨0, 10⟩, [⟨2, 2⟩]⟩
        ⟨[], [2], true, false, true, none, 0, true, 0, 0⟩).lastActivityTime = 1000 ∧
      (onCompositionEnd DEFAULT_SETTINGS 1000 ⟨⟨0, 10⟩, [⟨2, 2⟩]⟩
        ⟨[], [2], true, false, true, none, 0, true, 0, 0⟩).idleTimeout =
        (if DEFAULT_SETTINGS.blinkOnlyWhenIdle then
          some (1000 + max 0 DEFAULT_SETTINGS.idleDelay) else none) ∧
      (onCompositionEnd DEFAULT_SETTINGS 1000 ⟨⟨0, 10⟩, [⟨2, 2⟩]⟩
        ⟨[], [2], true, false, true, none, 0, true, 0, 0⟩).deco =
        (⟨[], [2], true, false, true, none, 0, true, 0, 0⟩ : PluginState).deco ∧
      (onCompositionEnd DEFAULT_SETTINGS 1000 ⟨⟨0, 10⟩, [⟨2, 2⟩]⟩
        ⟨[], [2], true, false, true, none, 0, true, 0, 0⟩).rebuildCount =
        (⟨[], [2], true, false, true, none, 0, true, 0, 0⟩ : PluginState).rebuildCount ∧
      (onCompositionEnd DEFAULT_SETTINGS 1000 ⟨⟨0, 10⟩, [⟨2, 2⟩]⟩
        ⟨[], [2], true, false, true, none, 0, true, 0, 0⟩).viewUpdateCount =
        (⟨[], [2], true, false, true, none, 0, true, 0, 0⟩ : PluginState).viewUpdateCount :=
  C5_composition_end_amended DEFAULT_SETTINGS 1000 ⟨⟨0, 10⟩, [⟨2, 2⟩]⟩
    ⟨[], [2], true, false, true, none, 0, true, 0, 0⟩ rfl rfl

/-- Single-timer invariant of the idle scheduler: whenever the one
idle timeout is pending, its fire time is exactly the last activity
time plus the clamped idle delay. -/
def TimerInv (settings : CustomCursorSettings) (st : PluginState) : Prop :=
  ∀ tf, st.idleTimeout = some tf →
    tf = st.lastActivityTime + max 0 settings.idleDelay

theorem timerInv_of_fields (settings : CustomCursorSettings)
    (st st' : PluginState) (hto : st'.idleTimeout = st.idleTimeout)
    (hla : st'.lastActivityTime = st.lastActivityTime)
    (h : TimerInv settings st) : TimerInv settings st' := by
  intro tf htf
  rw [hto] at htf
  rw [hla]
  exact h tf htf

theorem timerInv_scheduleIdleCheck (settings : CustomCursorSettings)
    (now : Int) (view : ViewRef) (st : PluginState)
    (hla : st.lastActivityTime = now) :
    TimerInv settings (scheduleIdleCheck settings now view st) := by
  intro tf htf
  simp only [scheduleIdleCheck, clearIdleTimeout] at htf
  split at htf
  · split at htf
    · cases htf
    · cases htf
  · simp only [Option.some.injEq] at htf
    simp only [scheduleIdleCheck, clearIdleTimeout]
    split
    · split
      · simp [← htf, hla]
      · simp [← htf, hla]
    · simp [← htf, hla]

theorem timerInv_markActivity (settings : CustomCursorSettings)
    (now : Int) (view : ViewRef) (st : PluginState) :
    TimerInv settings (markActivity settings now view st) := by
  simp only [markActivity]
  split
  · exact timerInv_scheduleIdleCheck settings now view _ rfl
  · exact timerInv_scheduleIdleCheck settings now view _ rfl

theorem update_idle_fields (settings : CustomCursorSettings) (now : Int)
    (view : ViewRef) (u : UpdateFlags) (st : PluginState) :
    ((update settings now view u st).idleTimeout = st.idleTimeout ∧
      (update settings now view u st).lastActivityTime = st.lastActivityTime) ∨
    ((update settings now view u st).idleTimeout =
        (markActivity settings now view (applyNativeCaretState st)).idleTimeout ∧
      (update settings now view u st).lastActivityTime =
        (markActivity settings now view (applyNativeCaretState st)).lastActivityTime) := by
  obtain ⟨deco, heads, liv, isIdle, isComposing, it, lat, nv, rc, vc⟩ := st
  obtain ⟨us, ud, uv⟩ := u
  cases us <;> cases ud <;> cases uv <;> cases isComposing <;>
    cases hb : settings.blinkOnlyWhenIdle <;> cases isIdle <;>
      simp [update, markActivity, scheduleIdleCheck, clearIdleTimeout,
        applyNativeCaretState, updateCursorCache, hb,
        apply_ite PluginState.idleTimeout,
        apply_ite PluginState.lastActivityTime]

theorem timerInv_update (settings : CustomCursorSettings) (now : Int)
    (view : ViewRef) (u : UpdateFlags) (st : PluginState)
    (h : TimerInv settings st) :
    TimerInv settings (update settings now view u st) := by
  rcases update_idle_fields settings now view u st with ⟨h1, h2⟩ | ⟨h1, h2⟩
  · exact timerInv_of_fields settings st _ h1 h2 h
  · exact timerInv_of_fields settings _ _ h1 h2
      (timerInv_markActivity settings now view (applyNativeCaretState st))

theorem timerInv_stepEv (settings : CustomCursorSettings) (e : PluginEvent)
    (st : PluginState) (h : TimerInv settings st) :
    TimerInv settings (stepEv settings e st) := by
  cases e with
  | upd now view u => exact timerInv_update settings now view u st h
  | fire t view =>
    simp only [stepEv]
    split
    · split
      · intro tf htf
        simp only [idleTimeoutCallback] at htf
        split at htf
        · cases htf
        · cases htf
      · exact h
    · exact h
  | compStart view =>
    obtain ⟨deco, heads, liv, isIdle, isComposing, it, lat, nv, rc, vc⟩ := st
    cases isComposing with
    | true => simpa [stepEv, onCompositionStart] using h
    | false =>
      intro tf htf
      simp [stepEv, onCompositionStart, clearIdleTimeout,
        applyNativeCaretState] at htf
  | compEnd t view =>
    simp only [stepEv, onCompositionEnd]
    split
    · exact h
    · refine timerInv_scheduleIdleCheck settings t view _ ?_
      obtain ⟨deco, heads, liv, isIdle, isComposing, it, lat, nv, rc, vc⟩ := st
      cases hb : settings.blinkOnlyWhenIdle <;> cases isIdle <;>
        simp [markActivity, scheduleIdleCheck, clearIdleTimeout,
          applyNativeCaretState, hb]

theorem timerInv_runTrace (settings : CustomCursorSettings)
    (evs : List PluginEvent) (st : PluginState) (h : TimerInv settings st) :
    TimerInv settings (runTrace settings evs st) := by
  induction evs generalizing st with
  | nil => exact h
  | cons e rest ih =>
    exact ih (stepEv settings e st) (timerInv_stepEv settings e st h)

theorem timerInv_constructorState (settings : CustomCursorSettings)
    (t0 : Int) (view : ViewRef) :
    TimerInv settings (constructorState settings t0 view) := by
  simp only [constructorState]
  exact timerInv_scheduleIdleCheck settings t0 view _ rfl

/-- C3: with blinkOnlyWhenIdle on, in every state reachable by any
event trace from the constructor: (a) immediately after an activity
mark isIdle is false and the single pending timer has been cleared and
rescheduled to fire exactly max 0 idleDelay after the mark (no periodic
polling — one timeout, reset on every mark); (b) a timer firing can set
isIdle to true only at a time at least max 0 idleDelay after the last
activity mark. -/
theorem C3_idle_scheduling (settings : CustomCursorSettings)
    (hb : settings.blinkOnlyWhenIdle = true) (t0 : Int) (view0 : ViewRef)
    (evs : List PluginEvent) :
    (∀ now view,
        (runTrace settings evs (constructorState settings t0 view0)).isComposing = false →
        (markActivity settings now view
            (runTrace settings evs (constructorState settings t0 view0))).isIdle = false ∧
          (markActivity settings now view
              (runTrace settings evs (constructorState settings t0 view0))).idleTimeout =
            some (now + max 0 settings.idleDelay)) ∧
      (∀ t view,
        (runTrace settings evs (constructorState settings t0 view0)).isIdle = false →
        (stepEv settings (.fire t view)
            (runTrace settings evs (constructorState settings t0 view0))).isIdle = true →
        (runTrace settings evs (constructorState settings t0 view0)).lastActivityTime +
            max 0 settings.idleDelay ≤ t) := by
  have hinv : TimerInv settings
      (runTrace settings evs (constructorState settings t0 view0)) :=
    timerInv_runTrace settings evs _
      (timerInv_constructorState settings t0 view0)
  set s := runTrace settings evs (constructorState settings t0 view0) with hs
  constructor
  · intro now view hc
    obtain ⟨deco, heads, liv, isIdle, isComposing, it, lat, nv, rc, vc⟩ := s
    simp only at hc
    subst hc
    cases isIdle <;>
      simp [markActivity, scheduleIdleCheck, clearIdleTimeout, hb]
  · intro t view hidle hfired
    rcases hto : s.idleTimeout with _ | tf
    · simp [stepEv, hto, hidle] at hfired
    · by_cases hle : tf ≤ t
      · have : tf = s.lastActivityTime + max 0 settings.idleDelay :=
          hinv tf hto
        omega
      · simp [stepEv, hto, if_neg hle, hidle] at hfired

/-- Witness for C3: with the default settings (blinkOnlyWhenIdle on,
idleDelay 500), from the freshly constructed instance, an activity mark
at time 100 leaves isIdle false with the timer rescheduled to 600, and
the timer firing at time 600 (which does set isIdle) is at least
max 0 idleDelay after the last activity time 0. -/
theorem C3_idle_scheduling_witness :
    ((markActivity DEFAULT_SETTINGS 100 ⟨⟨0, 10⟩, [⟨2, 2⟩]⟩
        (runTrace DEFAULT_SETTINGS []
          (constructorState DEFAULT_SETTINGS 0 ⟨⟨0, 10⟩, [⟨2, 2⟩]⟩))).isIdle = false ∧
      (markActivity DEFAULT_SETTINGS 100 ⟨⟨0, 10⟩, [⟨2, 2⟩]⟩
        (runTrace DEFAULT_SETTINGS []
          (constructorState DEFAULT_SETTINGS 0 ⟨⟨0, 10⟩, [⟨2, 2⟩]⟩))).idleTimeout =
        some (100 + max 0 DEFAULT_SETTINGS.idleDelay)) ∧
      (runTrace DEFAULT_SETTINGS []
          (constructorState DEFAULT_SETTINGS 0 ⟨⟨0, 10⟩, [⟨2, 2⟩]⟩)).lastActivityTime +
        max 0 DEFAULT_SETTINGS.idleDelay ≤ 600 := by
  refine ⟨(C3_idle_scheduling DEFAULT_SETTINGS rfl 0 ⟨⟨0, 10⟩, [⟨2, 2⟩]⟩ []).1
      100 ⟨⟨0, 10⟩, [⟨2, 2⟩]⟩ (by decide),
    (C3_idle_scheduling DEFAULT_SETTINGS rfl 0 ⟨⟨0, 10⟩, [⟨2, 2⟩]⟩ []).2
      600 ⟨⟨0, 10⟩, [⟨2, 2⟩]⟩ (by decide) (by decide)⟩

/-- Counterexample to C7 as stated: with heightMultiplier 2.0 (allowed
by the settings range) and both the title and editor line heights equal
to 20, the rendered floating indicator has height
max 1 (min 20 20 * 2) = 40, which exceeds the smaller of the two line
heights — the code clamps the line-height input of the size
computation, not the final height. -/
theorem C7_title_height_counterexample :
    render ⟨.accent, "#528BFF", 2, 2, .line, 1000, true, 500⟩ true false false
        ⟨true, 1, true, true, some ⟨5, 30, 20⟩, 16, 20⟩ =
      some ⟨5, -10, 2, 40, false⟩ ∧
    min (titleLineHeightOf ⟨true, 1, true, true, some ⟨5, 30, 20⟩, 16, 20⟩)
        (⟨true, 1, true, true, some ⟨5, 30, 20⟩, 16, 20⟩ : TitleDom).editorBaseLineHeight
      < (40 : Rat) := by
  constructor
  · norm_num [render, getCaretSize, shouldBlink]
  · norm_num [titleLineHeightOf]

/-- C7 as amended: the rendered floating indicator's geometry is
derived from the bounding rectangle of the collapsed caret range
(left = rect.left, top = rect.bottom - height), and the line height fed
to the size computation is clamped to
min(title line height, editor base line height); the final height is
that clamped value times heightMultiplier (floored at 1), so it stays
within the clamp whenever heightMultiplier <= 1 — and, for the
underline style, whenever cursorWidth is within the clamp — but it can
exceed the clamp for heightMultiplier up to 2.0. -/
theorem C7_title_geometry_amended (settings : CustomCursorSettings)
    (activeTitle isComposing isIdle : Bool) (dom : TitleDom)
    (v : TitleCaretView)
    (hr : render settings activeTitle isComposing isIdle dom = some v)
    (hm : settings.cursorHeight ≤ 1)
    (hw : settings.cursorWidth ≤
      min (titleLineHeightOf dom) dom.editorBaseLineHeight)
    (h1 : (1 : Rat) ≤ min (titleLineHeightOf dom) dom.editorBaseLineHeight) :
    (∃ rect, dom.caretRect = some rect ∧ v.left = rect.left ∧
        v.top = rect.bottom - v.height) ∧
      v.height ≤ min (titleLineHeightOf dom) dom.editorBaseLineHeight := by
  rcases hdr : dom.caretRect with _ | rect
  · simp only [render, hdr] at hr
    split at hr
    · cases hr
    · split at hr
      · cases hr
      · cases hr
  · simp only [render, hdr] at hr
    split at hr
    · cases hr
    · split at hr
      · cases hr
      · simp only [Option.some.injEq] at hr
        subst hr
        have hml : titleLineHeightOf dom =
            (if rect.height > 0 then rect.height
             else dom.titleFallbackLineHeight) := by
          simp [titleLineHeightOf, hdr]
        refine ⟨⟨rect, rfl, rfl, rfl⟩, ?_⟩
        rw [hml] at hw h1 ⊢
        have h0 : (0 : Rat) ≤
            min (if rect.height > 0 then rect.height
              else dom.titleFallbackLineHeight) dom.editorBaseLineHeight :=
          le_trans zero_le_one h1
        cases hstyle : settings.cursorStyle with
        | block =>
          simp only [getCaretSize, hstyle]
          exact max_le h1 (mul_le_of_le_one_right h0 hm)
        | line =>
          simp only [getCaretSize, hstyle]
          exact max_le h1 (mul_le_of_le_one_right h0 hm)
        | underline =>
          simp only [getCaretSize, hstyle]
          exact max_le h1 hw

/-- Witness for the amended C7: a concrete render with
heightMultiplier 1 yields height 20, within the clamp min 20 20. -/
theorem C7_title_geometry_amended_witness :
    ((∃ rect, (⟨true, 1, true, true, some ⟨5, 30, 20⟩, 16, 20⟩ : TitleDom).caretRect =
          some rect ∧
        (⟨5, 10, 2, 20, false⟩ : TitleCaretView).left = rect.left ∧
        (⟨5, 10, 2, 20, false⟩ : TitleCaretView).top =
          rect.bottom - (⟨5, 10, 2, 20, false⟩ : TitleCaretView).height) ∧
      (⟨5, 10, 2, 20, false⟩ : TitleCaretView).height ≤
        min (titleLineHeightOf ⟨true, 1, true, true, some ⟨5, 30, 20⟩, 16, 20⟩)
          (⟨true, 1, true, true, some ⟨5, 30, 20⟩, 16, 20⟩ : TitleDom).editorBaseLineHeight) :=
  C7_title_geometry_amended ⟨.accent, "#528BFF", 2, 1, .line, 1000, true, 500⟩
    true false false ⟨true, 1, true, true, some ⟨5, 30, 20⟩, 16, 20⟩
    ⟨5, 10, 2, 20, false⟩
    (by norm_num [render, getCaretSize, shouldBlink])
    (by norm_num)
    (by norm_num [titleLineHeightOf])
    (by norm_num [titleLineHeightOf])

/-- C8, evaluated at the failing input: construct the title caret
manager (no active title), dispatch a focusout event, then destroy()
before the queued zero-delay focus-out timeout runs.  The timeout is
still pending after destroy (destroy stores no handle for it), and when
it then fires with the selection anchored in title element 1, the
destroyed instance re-activates that title — installing the forced
caret-color override and the active class — schedules a fresh idle
timeout and a fresh animation frame.  This contradicts the claim that
after destroy no timer or frame callback of the instance ever fires and
no style override remains. -/
theorem C8_destroy_timer_leak :
    (titleRun DEFAULT_SETTINGS [.focusOut, .doDestroy 50]
        (titleConstructorState DEFAULT_SETTINGS 0 none)).destroyed = true ∧
      (titleRun DEFAULT_SETTINGS [.focusOut, .doDestroy 50]
        (titleConstructorState DEFAULT_SETTINGS 0 none)).focusOutTimeouts = 1 ∧
      (titleRun DEFAULT_SETTINGS
          [.focusOut, .doDestroy 50, .focusOutFire 60 (some 1)]
          (titleConstructorState DEFAULT_SETTINGS 0 none)).rafId = true ∧
      (titleRun DEFAULT_SETTINGS
          [.focusOut, .doDestroy 50, .focusOutFire 60 (some 1)]
          (titleConstructorState DEFAULT_SETTINGS 0 none)).overriddenTitles = [1] ∧
      (titleRun DEFAULT_SETTINGS
          [.focusOut, .doDestroy 50, .focusOutFire 60 (some 1)]
          (titleConstructorState DEFAULT_SETTINGS 0 none)).idleTimeout =
        some (60 + max 0 DEFAULT_SETTINGS.idleDelay) := by
  decide

/-- Build is unchanged when the empty-range head lists of two selection
sets coincide (the loop ignores non-empty ranges entirely). -/
theorem build_congr_ranges (settings : CustomCursorSettings) (vp : Viewport)
    (r1 r2 : List SelectionRange) (isIdle isComposing : Bool)
    (h : emptyHeads r1 = emptyHeads r2) :
    build settings ⟨vp, r1⟩ isIdle isComposing =
      build settings ⟨vp, r2⟩ isIdle isComposing := by
  rw [build_eq_buildFromHeads, build_eq_buildFromHeads]
  simp only [h]

theorem buildFromHeads_congr_viewport (settings : CustomCursorSettings)
    (vp1 vp2 : Viewport) (heads : List Int) (isIdle : Bool)
    (hlen : heads.length ≤ 1)
    (h : heads.any (headInViewport vp1) = heads.any (headInViewport vp2)) :
    buildFromHeads settings vp1 heads isIdle =
      buildFromHeads settings vp2 heads isIdle := by
  match heads with
  | [] => rfl
  | [h0] =>
    simp only [List.any_cons, List.any_nil, Bool.or_false] at h
    cases hv1 : headInViewport vp1 h0 with
    | true =>
      have hv2 : headInViewport vp2 h0 = true := by rw [← h, hv1]
      rw [buildFromHeads_cons_in _ _ _ _ _ hv1,
        buildFromHeads_cons_in _ _ _ _ _ hv2]
      rfl
    | false =>
      have hv2 : headInViewport vp2 h0 = false := by rw [← h, hv1]
      rw [buildFromHeads_cons_out _ _ _ _ _ hv1,
        buildFromHeads_cons_out _ _ _ _ _ hv2]
      rfl
  | h0 :: h1 :: rest => simp at hlen

/-- Build over two viewports coincides when at most one empty caret
exists and the aggregate any-caret-in-viewport test agrees. -/
theorem build_congr_viewport_single (settings : CustomCursorSettings)
    (vp1 vp2 : Viewport) (ranges : List SelectionRange)
    (isIdle isComposing : Bool)
    (hlen : (emptyHeads ranges).length ≤ 1)
    (h : (emptyHeads ranges).any (headInViewport vp1) =
      (emptyHeads ranges).any (headInViewport vp2)) :
    build settings ⟨vp1, ranges⟩ isIdle isComposing =
      build settings ⟨vp2, ranges⟩ isIdle isComposing := by
  rw [build_eq_buildFromHeads, build_eq_buildFromHeads]
  cases isComposing with
  | true => simp
  | false =>
    simp only [Bool.false_eq_true, if_false]
    exact buildFromHeads_congr_viewport settings vp1 vp2 _ isIdle hlen h

/-- Gate-soundness invariant relating a plugin instance to the current
view: the cursor cache mirrors the current empty-range heads and their
aggregate viewport membership, and the stored decoration set equals a
fresh build over the current selection, viewport, idle and composition
state. -/
def CacheInv (settings : CustomCursorSettings) (view : ViewRef)
    (st : PluginState) : Prop :=
  st.lastCursorHeads = emptyHeads view.ranges ∧
  st.lastInViewport =
    (emptyHeads view.ranges).any (headInViewport view.viewport) ∧
  st.deco = build settings view st.isIdle st.isComposing

/-- Counterexample to C9 as stated: two carets at offsets 10 and 100,
viewport scrolled from [5, 20] to [90, 110] with nothing else changed.
The invariant holds before the update, but the handler's scroll
optimization compares only the aggregate any-caret-visible flag — true
before (10 visible) and after (100 visible) — and skips the rebuild, so
the stored decoration set still shows the caret at 10 while a fresh
build over the new viewport shows the caret at 100. -/
theorem C9_stale_decorations_counterexample :
    CacheInv ⟨.accent, "#528BFF", 2, 1, .line, 1000, false, 500⟩
        ⟨⟨5, 20⟩, [⟨10, 10⟩, ⟨100, 100⟩]⟩
        ⟨[⟨10, ⟨true⟩, 1⟩], [10, 100], true, false, false, none, 0, false, 0, 0⟩ ∧
      (update ⟨.accent, "#528BFF", 2, 1, .line, 1000, false, 500⟩ 1
          ⟨⟨90, 110⟩, [⟨10, 10⟩, ⟨100, 100⟩]⟩ ⟨false, false, true⟩
          ⟨[⟨10, ⟨true⟩, 1⟩], [10, 100], true, false, false, none, 0, false, 0, 0⟩).deco =
        [⟨10, ⟨true⟩, 1⟩] ∧
      (update ⟨.accent, "#528BFF", 2, 1, .line, 1000, false, 500⟩ 1
          ⟨⟨90, 110⟩, [⟨10, 10⟩, ⟨100, 100⟩]⟩ ⟨false, false, true⟩
          ⟨[⟨10, ⟨true⟩, 1⟩], [10, 100], true, false, false, none, 0, false, 0, 0⟩).isIdle =
        false ∧
      (update ⟨.accent, "#528BFF", 2, 1, .line, 1000, false, 500⟩ 1
          ⟨⟨90, 110⟩, [⟨10, 10⟩, ⟨100, 100⟩]⟩ ⟨false, false, true⟩
          ⟨[⟨10, ⟨true⟩, 1⟩], [10, 100], true, false, false, none, 0, false, 0, 0⟩).isComposing =
        false ∧
      build ⟨.accent, "#528BFF", 2, 1, .line, 1000, false, 500⟩
          ⟨⟨90, 110⟩, [⟨10, 10⟩, ⟨100, 100⟩]⟩ false false =
        [⟨100, ⟨true⟩, 1⟩] := by
  refine ⟨⟨by decide, by decide, by decide⟩, by decide, by decide, by decide,
    by decide⟩

/-- C9 as amended: under a constant settings accessor, the gate
invariant (cursor cache consistent and stored decorations equal to a
fresh build) is preserved by every invocation of update() — including
every skip path — provided at most one empty caret is cached.  (With
two or more carets the viewport-scroll optimization can skip a needed
rebuild, see the counterexample.)  The notification is assumed
consistent with the views: viewport unchanged when the
viewport-changed flag is off, ranges unchanged when both the
selection-changed and document-changed flags are off. -/
theorem C9_deco_invariant_amended (settings : CustomCursorSettings)
    (now : Int) (oldView newView : ViewRef) (u : UpdateFlags)
    (st : PluginState)
    (hInv : CacheInv settings oldView st)
    (hvp : u.viewportChanged = false → newView.viewport = oldView.viewport)
    (hrg : u.selectionSet = false → u.docChanged = false →
      newView.ranges = oldView.ranges)
    (hlen : st.lastCursorHeads.length ≤ 1) :
    CacheInv settings newView (update settings now newView u st) := by
  obtain ⟨hheads, hliv, hdeco⟩ := hInv
  obtain ⟨ovp, org⟩ := oldView
  obtain ⟨nvp, nrg⟩ := newView
  obtain ⟨us, ud, uv⟩ := u
  obtain ⟨deco, heads, liv, isIdle, isComposing, it, lat, nv, rc, vc⟩ := st
  dsimp only at hheads hliv hdeco hlen hvp hrg
  subst hheads hliv hdeco
  cases us with
  | false =>
    cases ud with
    | false =>
      cases uv with
      | false =>
        have hnv : nvp = ovp := hvp rfl
        have hnr : nrg = org := hrg rfl rfl
        subst hnv hnr
        cases hb : settings.blinkOnlyWhenIdle <;> cases isIdle <;>
          simp [update, applyNativeCaretState, clearIdleTimeout, CacheInv, hb]
      | true =>
        have hnr : nrg = org := hrg rfl rfl
        subst hnr
        by_cases hmem : (emptyHeads nrg).any (headInViewport nvp) =
            (emptyHeads nrg).any (headInViewport ovp)
        · have hbuild : ∀ i c, build settings ⟨ovp, nrg⟩ i c =
              build settings ⟨nvp, nrg⟩ i c := fun i c =>
            build_congr_viewport_single settings ovp nvp nrg i c hlen hmem.symm
          cases hb : settings.blinkOnlyWhenIdle <;> cases isIdle <;>
            simp [update, applyNativeCaretState, clearIdleTimeout, CacheInv,
              cursorsEqual, hb, hmem, hbuild]
        · cases hb : settings.blinkOnlyWhenIdle <;> cases isIdle <;>
            simp [update, applyNativeCaretState, clearIdleTimeout, CacheInv,
              cursorsEqual, hb, hmem]
    | true =>
      cases uv with
      | false =>
        have hnv : nvp = ovp := hvp rfl
        subst hnv
        by_cases hcu : emptyHeads nrg = emptyHeads org
        · have hbuild : ∀ i c, build settings ⟨nvp, org⟩ i c =
              build settings ⟨nvp, nrg⟩ i c := fun i c =>
            (build_congr_ranges settings nvp nrg org i c hcu).symm
          cases hb : settings.blinkOnlyWhenIdle <;> cases isIdle <;>
            cases isComposing <;>
              simp [update, applyNativeCaretState, clearIdleTimeout,
                markActivity, scheduleIdleCheck, CacheInv, cursorsEqual, hb,
                hcu, hbuild]
        · cases hb : settings.blinkOnlyWhenIdle <;> cases isIdle <;>
            cases isComposing <;>
              simp [update, applyNativeCaretState, clearIdleTimeout,
                markActivity, scheduleIdleCheck, updateCursorCache, CacheInv,
                cursorsEqual, hb, hcu]
      | true =>
        cases hb : settings.blinkOnlyWhenIdle <;> cases isIdle <;>
          cases isComposing <;>
            simp [update, applyNativeCaretState, clearIdleTimeout,
              markActivity, scheduleIdleCheck, updateCursorCache, CacheInv,
              cursorsEqual, hb]
  | true =>
    cases ud with
    | false =>
      cases uv with
      | false =>
        have hnv : nvp = ovp := hvp rfl
        subst hnv
        by_cases hcu : emptyHeads nrg = emptyHeads org
        · have hbuild : ∀ i c, build settings ⟨nvp, org⟩ i c =
              build settings ⟨nvp, nrg⟩ i c := fun i c =>
            (build_congr_ranges settings nvp nrg org i c hcu).symm
          cases hb : settings.blinkOnlyWhenIdle <;> cases isIdle <;>
            simp [update, applyNativeCaretState, clearIdleTimeout, CacheInv,
              cursorsEqual, hb, hcu, hbuild]
        · cases hb : settings.blinkOnlyWhenIdle <;> cases isIdle <;>
            simp [update, applyNativeCaretState, clearIdleTimeout,
              updateCursorCache, CacheInv, cursorsEqual, hb, hcu]
      | true =>
        cases hb : settings.blinkOnlyWhenIdle <;> cases isIdle <;>
          simp [update, applyNativeCaretState, clearIdleTimeout,
            updateCursorCache, CacheInv, cursorsEqual, hb]
    | true =>
      cases uv with
      | false =>
        have hnv : nvp = ovp := hvp rfl
        subst hnv
        by_cases hcu : emptyHeads nrg = emptyHeads org
        · have hbuild : ∀ i c, build settings ⟨nvp, org⟩ i c =
              build settings ⟨nvp, nrg⟩ i c := fun i c =>
            (build_congr_ranges settings nvp nrg org i c hcu).symm
          cases hb : settings.blinkOnlyWhenIdle <;> cases isIdle <;>
            cases isComposing <;>
              simp [update, applyNativeCaretState, clearIdleTimeout,
                markActivity, scheduleIdleCheck, CacheInv, cursorsEqual, hb,
                hcu, hbuild]
        · cases hb : settings.blinkOnlyWhenIdle <;> cases isIdle <;>
            cases isComposing <;>
              simp [update, applyNativeCaretState, clearIdleTimeout,
                markActivity, scheduleIdleCheck, updateCursorCache, CacheInv,
                cursorsEqual, hb, hcu]
      | true =>
        cases hb : settings.blinkOnlyWhenIdle <;> cases isIdle <;>
          cases isComposing <;>
            simp [update, applyNativeCaretState, clearIdleTimeout,
              markActivity, scheduleIdleCheck, updateCursorCache, CacheInv,
              cursorsEqual, hb]

/-- Witness for the amended C9: a single caret at offset 3, a
selection-changed notification over an unchanged viewport, starting
from a cache-consistent state. -/
theorem C9_deco_invariant_amended_witness :
    CacheInv DEFAULT_SETTINGS ⟨⟨0, 10⟩, [⟨3, 3⟩]⟩
      (update DEFAULT_SETTINGS 5 ⟨⟨0, 10⟩, [⟨3, 3⟩]⟩ ⟨true, false, false⟩
        ⟨[⟨3, ⟨false⟩, 1⟩], [3], true, false, false, none, 0, false, 0, 0⟩) :=
  C9_deco_invariant_amended DEFAULT_SETTINGS 5 ⟨⟨0, 10⟩, [⟨3, 3⟩]⟩
    ⟨⟨0, 10⟩, [⟨3, 3⟩]⟩ ⟨true, false, false⟩
    ⟨[⟨3, ⟨false⟩, 1⟩], [3], true, false, false, none, 0, false, 0, 0⟩
    ⟨by decide, by decide, by decide⟩
    (fun _ => rfl)
    (fun h _ => nomatch h)
    (by decide)
